import Mathlib

/-
Verification of the upgrade-coordination logic of
`tools/upgrader/util/upgrade.go` (`UpgradeCluster`, `checkMachineReady`).

Shallow embedding notes.
* Machine and Node records keep the fields the coordinator reads or writes
  (name, control-plane role flag, version fields, node reference, node
  readiness and reported kubelet version) plus one opaque field
  (`providerConfig`) standing for the rest of the record, so that frame
  claims are meaningful.
* The external cluster API (machine repository and node status oracle) is a
  parameter `Env` of response functions.  Readiness checks run repeatedly,
  so the poll-time Get responses are indexed by the attempt number.
* `util.IsMaster` / `util.IsNodeReady` live in a package that is not part
  of the sources; following the design document they are modelled as
  boolean attributes of the records.
* Goroutines are modelled as atomically executed tasks; the `schedule`
  argument lists the worker indices in completion order, which is also the
  order their results appear in the shared channel.
* Go's short variable declarations shadow outer variables.  In the source,
  `new_machine, err := machInterface.Update(...)` (both in the
  control-plane block and in each worker goroutine) declares a fresh `err`
  scoped to that block, so the update and poll errors written there never
  reach the outer `err` that the function returns and the goroutines send.
  The embedding reproduces this: the control-plane branch discards the
  update/poll error before the `if err != nil` check, and a worker sends
  only its re-fetch error.
-/

set_option autoImplicit false

namespace ClusterUpgrade

/-- Errors the coordinator can return: an error surfaced by the cluster
API (`api`, the repository / oracle errors), the `No master is found.`
error built with `fmt.Errorf`, and the poller's timeout error. -/
inductive Err where
  | api : String → Err
  | noMaster : Err
  | timeout : Err
deriving DecidableEq, Repr

/-- The `Spec.Versions` fields the coordinator writes. -/
structure MachineVersions where
  kubelet : String
  controlPlane : String
deriving DecidableEq, Repr

/-- A machine record: name, control-plane role flag (the result of
`util.IsMaster`, modelled from the spec as a capability flag), an opaque
field standing for the remainder of the record, the version fields, and
the optional node reference (`Status.NodeRef`). -/
structure Machine where
  name : String
  isMaster : Bool
  providerConfig : String
  versions : MachineVersions
  nodeRef : Option String
deriving DecidableEq, Repr

/-- A node record: the boolean readiness state derived from its
conditions, and `Status.NodeInfo.KubeletVersion`. -/
structure Node where
  ready : Bool
  kubeletVersion : String
deriving DecidableEq, Repr

/-- Modelled from the spec: `util.IsNodeReady` (not among the sources)
reports the boolean ready state derived from the node's conditions. -/
def isNodeReady (n : Node) : Bool :=
  n.ready

/-- Observable calls made by `UpgradeCluster` against the machine
repository: an `Update` submission carrying the submitted record, a worker
task's re-fetch `Get` by machine name, and a marker emitted when the
control-plane readiness poll succeeds. -/
inductive Event where
  | update : Machine → Event
  | getM : String → Event
  | cpReady : Event
deriving DecidableEq, Repr

/-- Responses of the external cluster API.  `list` answers
`machInterface.List`; `update` answers `machInterface.Update`; `refetch`
answers the worker task's `machInterface.Get`; `get t` / `node t` answer
the `Get` calls issued by `checkMachineReady` during poll attempt `t`;
`attempts` is the number of poll attempts the 10-minute deadline allows. -/
structure Env where
  list : Except Err (List Machine)
  update : Machine → Except Err Machine
  refetch : String → Except Err Machine
  get : Nat → String → Except Err Machine
  node : Nat → String → Except Err Node
  attempts : Nat

/-- Translation of `checkMachineReady`: get the machine; a missing node
reference is not-ready without error; fetch the referenced node; a node
that is not ready is not-ready without error; the machine is ready exactly
when the node's kubelet version is the string `"v" + kubeVersion`. -/
def checkMachineReady (getMachine : String → Except Err Machine)
    (getNode : String → Except Err Node)
    (machineName kubeVersion : String) : Bool × Option Err :=
  match getMachine machineName with
  | .error e => (false, some e)
  | .ok machine =>
    match machine.nodeRef with
    | none => (false, none)
    | some refName =>
      match getNode refName with
      | .error e => (false, some e)
      | .ok node =>
        if !isNodeReady node then (false, none)
        else if node.kubeletVersion = "v" ++ kubeVersion then (true, none)
        else (false, none)

/-- `checkMachineReady` as run during poll attempt `t`. -/
def checkAt (env : Env) (t : Nat) (machineName kubeVersion : String) :
    Bool × Option Err :=
  checkMachineReady (env.get t) (env.node t) machineName kubeVersion

/-- Translation of the closure wrapped around `checkMachineReady` in both
poll sites: a non-nil error from the check is mapped to
`(false, nil)` — not yet ready — and never escapes. -/
def pollWrapper : Bool × Option Err → Bool × Option Err
  | (_, some _) => (false, none)
  | (ready, none) => (ready, none)

/-- Modelled from the spec: `wait.Poll` (vendored third-party code, not
among the sources).  The predicate is invoked once per attempt until it
reports ready or the deadline allows no further attempt; per the design
document a non-nil error from the predicate does not abort polling and
only `ready = true` terminates successfully, deadline exhaustion being the
sole failure path, reported as a timeout.  `pred t` is the predicate's
result at attempt `t`. -/
def waitPollFrom (pred : Nat → Bool × Option Err) : Nat → Nat → Option Err
  | _, 0 => some Err.timeout
  | t, k + 1 => if (pred t).1 then none else waitPollFrom pred (t + 1) k

/-- Run the poller from attempt `0` with `attempts` attempts. -/
def waitPoll (attempts : Nat) (pred : Nat → Bool × Option Err) : Option Err :=
  waitPollFrom pred 0 attempts

/-- The record submitted for the control-plane machine: both
`Spec.Versions.Kubelet` and `Spec.Versions.ControlPlane` set to the
target. -/
def cpSubmitted (m : Machine) (kubeversion : String) : Machine :=
  { m with versions := { kubelet := kubeversion, controlPlane := kubeversion } }

/-- The record submitted by a worker task: only `Spec.Versions.Kubelet`
set to the target, applied to the re-fetched record. -/
def workerSubmitted (m : Machine) (kubeversion : String) : Machine :=
  { m with versions := { m.versions with kubelet := kubeversion } }

/-- The value a worker goroutine sends on the shared channel.  Because
`new_machine, err := machInterface.Update(mach)` shadows the captured
`err`, the update and poll errors are written to a block-local variable;
the value sent by `errors <- err` is the one written by the goroutine's
re-fetch: its error on failure, `nil` otherwise. -/
def taskSent (env : Env) (m : Machine) : Option Err :=
  match env.refetch m.name with
  | .error e => some e
  | .ok _ => none

/-- The repository calls a worker task issues: the re-fetch `Get`, and on
its success the `Update` of the re-fetched record with the kubelet version
set to the target.  (The task then polls readiness, but the poll's result
is written to the shadowed local error and discarded.) -/
def taskEvents (env : Env) (kubeversion : String) (m : Machine) : List Event :=
  match env.refetch m.name with
  | .error _ => [Event.getM m.name]
  | .ok fetched =>
    [Event.getM m.name, Event.update (workerSubmitted fetched kubeversion)]

/-- The outcome the design document says each worker task delivers: the
error of its re-fetch, of its update submission, or of its readiness poll,
and `nil` on success.  This is the spec-side description, kept for
comparison with `taskSent`, the value the code actually sends. -/
def taskOutcome (env : Env) (kubeversion : String) (m : Machine) : Option Err :=
  match env.refetch m.name with
  | .error e => some e
  | .ok fetched =>
    match env.update (workerSubmitted fetched kubeversion) with
    | .error e => some e
    | .ok nm =>
      waitPoll env.attempts (fun t => pollWrapper (checkAt env t nm.name kubeversion))

/-- Drain the channel as the aggregation loop does: take the received
values in order and return the first non-nil one, `nil` if all are nil. -/
def drainOutcomes : List (Option Err) → Option Err
  | [] => none
  | some e :: _ => some e
  | none :: rest => drainOutcomes rest

/-- The worker fan-out: `workers` are the non-control-plane machines in
listing order, `schedule` lists worker indices in completion order.  The
channel receives each completed task's sent value in completion order;
the aggregation loop returns the first non-nil received value.  The trace
is the concatenation of the completed tasks' repository calls. -/
def fanout (env : Env) (kubeversion : String) (workers : List Machine)
    (schedule : List Nat) : Option Err × List Event :=
  let completed := schedule.filterMap (fun i => workers[i]?)
  (drainOutcomes (completed.map (taskSent env)),
   completed.flatMap (taskEvents env kubeversion))

/-- The control-plane phase of `UpgradeCluster` as a repository-call
trace: the `Update` submission with both version fields set and, on
submission success, the readiness poll (`Event.cpReady` marks a
successful poll).  Because `new_machine, err := machInterface.Update(master)`
shadows the outer `err`, the update error and the poll's timeout are
written to a variable local to this block and discarded: the phase
produces no value the rest of the function can observe. -/
def cpPhase (env : Env) (kubeversion : String) (master : Machine) : List Event :=
  match env.update (cpSubmitted master kubeversion) with
  | .error _ => [Event.update (cpSubmitted master kubeversion)]
  | .ok nm =>
    match waitPoll env.attempts
        (fun t => pollWrapper (checkAt env t nm.name kubeversion)) with
    | none => [Event.update (cpSubmitted master kubeversion), Event.cpReady]
    | some _ => [Event.update (cpSubmitted master kubeversion)]

/-- Translation of `UpgradeCluster`, with the repository-call trace.
A listing failure is returned directly.  The first machine in listing
order with the control-plane flag is the master; if none is found the
`No master is found.` error is returned before any call.  Otherwise the
control-plane phase runs, its errors land in the block-local shadowed
`err`, and the function falls through to the worker fan-out regardless of
the phase's outcome; the outer `err` is nil at the `if err != nil` check,
so the fan-out result is what the function returns. -/
def UpgradeClusterT (env : Env) (kubeversion : String) (schedule : List Nat) :
    Option Err × List Event :=
  match env.list with
  | .error e => (some e, [])
  | .ok machines =>
    match machines.find? (fun m => m.isMaster) with
    | none => (some Err.noMaster, [])
    | some master =>
      let res := fanout env kubeversion (machines.filter (fun m => !m.isMaster)) schedule
      (res.1, cpPhase env kubeversion master ++ res.2)

/-- The error `UpgradeCluster` returns. -/
def UpgradeCluster (env : Env) (kubeversion : String) (schedule : List Nat) :
    Option Err :=
  (UpgradeClusterT env kubeversion schedule).1

/-! Concrete scenarios used by witnesses and counterexamples. -/

/-- The target version of the worked scenarios. -/
def vT : String := "1.2.3"

/-- A control-plane machine. -/
def m0 : Machine :=
  { name := "m0", isMaster := true, providerConfig := "p0",
    versions := { kubelet := "1.0.0", controlPlane := "1.0.0" }, nodeRef := some "n0" }

/-- A second control-plane machine, listed after `m0`. -/
def m1 : Machine :=
  { name := "m1", isMaster := true, providerConfig := "p3",
    versions := { kubelet := "1.0.0", controlPlane := "1.0.0" }, nodeRef := some "n1" }

/-- A worker machine. -/
def w1 : Machine :=
  { name := "w1", isMaster := false, providerConfig := "p1",
    versions := { kubelet := "1.0.0", controlPlane := "" }, nodeRef := some "nw1" }

/-- A second worker machine, listed after `w1`. -/
def w2 : Machine :=
  { name := "w2", isMaster := false, providerConfig := "p2",
    versions := { kubelet := "1.0.0", controlPlane := "" }, nodeRef := some "nw2" }

/-- A node already running the target version and ready. -/
def readyNode : Node := { ready := true, kubeletVersion := "v1.2.3" }

/-- A ready node still reporting the old version. -/
def staleNode : Node := { ready := true, kubeletVersion := "v1.0.0" }

/-- Scenario: control plane upgrades and confirms; the worker's re-fetch
and update succeed but its node never reaches the target version, so its
readiness poll times out. -/
def envWorkerStuck : Env :=
  { list := .ok [m0, w1]
    update := fun m => .ok m
    refetch := fun _ => .ok w1
    get := fun _ n => if n = "m0" then .ok m0 else .ok w1
    node := fun _ n => if n = "n0" then .ok readyNode else .ok staleNode
    attempts := 2 }

/-- Scenario: the control-plane node never reaches the target version, so
the control-plane readiness poll times out; the worker side is healthy. -/
def envCpStuck : Env :=
  { list := .ok [m0, w1]
    update := fun m => .ok m
    refetch := fun _ => .ok w1
    get := fun _ n => if n = "m0" then .ok m0 else .ok w1
    node := fun _ n => if n = "n0" then .ok staleNode else .ok readyNode
    attempts := 2 }

/-- Scenario: two workers whose re-fetches fail with distinct errors. -/
def envTwoFailures : Env :=
  { list := .ok [m0, w1, w2]
    update := fun m => .ok m
    refetch := fun n => .error (.api n)
    get := fun _ _ => .ok m0
    node := fun _ _ => .ok readyNode
    attempts := 1 }

/-- Scenario: the repository lists no machines at all. -/
def envEmpty : Env :=
  { list := .ok []
    update := fun m => .ok m
    refetch := fun _ => .ok m0
    get := fun _ _ => .ok m0
    node := fun _ _ => .ok readyNode
    attempts := 0 }

/-- Scenario: the listing itself fails. -/
def envListFails : Env :=
  { list := .error (.api "boom")
    update := fun m => .ok m
    refetch := fun _ => .ok m0
    get := fun _ _ => .ok m0
    node := fun _ _ => .ok readyNode
    attempts := 0 }

/-- Scenario: a single worker machine and no control-plane machine. -/
def envNoMaster : Env :=
  { list := .ok [w1]
    update := fun m => .ok m
    refetch := fun _ => .ok w1
    get := fun _ _ => .ok w1
    node := fun _ _ => .ok readyNode
    attempts := 1 }

/-- Scenario: two control-plane machines (`m0`, `m1`) and one worker. -/
def envTwoMasters : Env :=
  { list := .ok [m0, m1, w1]
    update := fun m => .ok m
    refetch := fun _ => .ok w1
    get := fun _ _ => .ok m0
    node := fun _ _ => .ok readyNode
    attempts := 1 }

/-! Helper lemmas. -/

/-- The poller succeeds exactly when some attempt within the budget
reports ready. -/
theorem waitPollFrom_eq_none_iff (pred : Nat → Bool × Option Err) :
    ∀ (k t : Nat), waitPollFrom pred t k = none ↔
      ∃ i, i < k ∧ (pred (t + i)).1 = true := by
  intro k
  induction k with
  | zero =>
    intro t
    simp [waitPollFrom]
  | succ n ih =>
    intro t
    simp only [waitPollFrom]
    by_cases h : (pred t).1 = true
    · simp only [h, if_true]
      constructor
      · intro _
        exact ⟨0, Nat.succ_pos n, by simpa using h⟩
      · intro _
        trivial
    · rw [if_neg (by simpa using h), ih (t + 1)]
      constructor
      · rintro ⟨i, hi, hp⟩
        refine ⟨i + 1, by omega, ?_⟩
        rw [show t + (i + 1) = t + 1 + i by omega]
        exact hp
      · rintro ⟨i, hi, hp⟩
        cases i with
        | zero =>
          rw [Nat.add_zero] at hp
          exact absurd hp h
        | succ j =>
          refine ⟨j, by omega, ?_⟩
          rw [show t + 1 + j = t + (j + 1) by omega]
          exact hp

/-- The poller's only failure value is the timeout error. -/
theorem waitPollFrom_eq_some (pred : Nat → Bool × Option Err) :
    ∀ (k t : Nat) (e : Err), waitPollFrom pred t k = some e → e = Err.timeout := by
  intro k
  induction k with
  | zero =>
    intro t e h
    simp [waitPollFrom] at h
    exact h.symm
  | succ n ih =>
    intro t e h
    simp only [waitPollFrom] at h
    by_cases hp : (pred t).1 = true
    · simp [hp] at h
    · rw [if_neg (by simpa using hp)] at h
      exact ih (t + 1) e h

/-- The wrapped predicate reports ready exactly when the underlying check
reported ready with a nil error. -/
theorem pollWrapper_fst (p : Bool × Option Err) :
    (pollWrapper p).1 = true ↔ p.1 = true ∧ p.2 = none := by
  rcases p with ⟨r, o⟩
  cases o <;> simp [pollWrapper]

/-- Draining the channel returns the sent value of the first task, in
received order, that sent a failure, with every earlier received value
nil. -/
theorem drainOutcomes_map_eq_some {α : Type} (f : α → Option Err) :
    ∀ (l : List α) (e : Err), drainOutcomes (l.map f) = some e →
      ∃ (j : Nat) (w : α), l[j]? = some w ∧ f w = some e ∧
        ∀ (j' : Nat) (w' : α), j' < j → l[j']? = some w' → f w' = none := by
  intro l
  induction l with
  | nil =>
    intro e h
    simp [drainOutcomes] at h
  | cons a l ih =>
    intro e h
    rw [List.map_cons] at h
    cases hfa : f a with
    | some e' =>
      rw [hfa] at h
      have he : e' = e := by simpa [drainOutcomes] using h
      refine ⟨0, a, by simp, by rw [hfa, he], ?_⟩
      intro j' w' hlt _
      omega
    | none =>
      rw [hfa] at h
      have h' : drainOutcomes (l.map f) = some e := by
        simpa [drainOutcomes] using h
      obtain ⟨j, w, hj, hw, hmin⟩ := ih e h'
      refine ⟨j + 1, w, by simpa using hj, hw, ?_⟩
      intro j' w' hlt hj'
      cases j' with
      | zero =>
        have ha : a = w' := by simpa using hj'
        rw [← ha, hfa]
      | succ k =>
        exact hmin k w' (by omega) (by simpa using hj')

/-- A completed task's machine is a non-control-plane machine of the
listing. -/
theorem mem_workers_of_completed {machines : List Machine} {s : List Nat}
    {w : Machine}
    (h : w ∈ s.filterMap (fun i => (machines.filter (fun m => !m.isMaster))[i]?)) :
    w ∈ machines ∧ w.isMaster = false := by
  rcases List.mem_filterMap.1 h with ⟨i, _, hi⟩
  have hw : w ∈ machines.filter (fun m => !m.isMaster) := List.getElem?_mem hi
  have hw' := List.mem_filter.1 hw
  exact ⟨hw'.1, by simpa using hw'.2⟩

/-- A worker task issues its re-fetch `Get` only under its own machine's
name. -/
theorem getM_mem_taskEvents {env : Env} {v : String} {m : Machine} {n : String}
    (h : Event.getM n ∈ taskEvents env v m) : n = m.name := by
  unfold taskEvents at h
  cases henv : env.refetch m.name <;> rw [henv] at h <;> simpa using h

/-- The control-plane phase trace begins with the control-plane `Update`
submission. -/
theorem cpPhase_head (env : Env) (v : String) (master : Machine) :
    ∃ rest, cpPhase env v master = Event.update (cpSubmitted master v) :: rest := by
  unfold cpPhase
  split
  · exact ⟨[], rfl⟩
  · split
    · exact ⟨[Event.cpReady], rfl⟩
    · exact ⟨[], rfl⟩

/-- The control-plane phase issues no `Get` by machine name. -/
theorem getM_not_mem_cpPhase (env : Env) (v : String) (master : Machine)
    (n : String) : Event.getM n ∉ cpPhase env v master := by
  unfold cpPhase
  split
  · simp
  · split <;> simp

/-- Unfolding `UpgradeClusterT` once the listing has succeeded. -/
theorem UpgradeClusterT_ok (env : Env) (v : String) (s : List Nat)
    (machines : List Machine) (hlist : env.list = .ok machines) :
    UpgradeClusterT env v s =
      match machines.find? (fun m => m.isMaster) with
      | none => (some Err.noMaster, [])
      | some master =>
        ((fanout env v (machines.filter (fun m => !m.isMaster)) s).1,
         cpPhase env v master ++
           (fanout env v (machines.filter (fun m => !m.isMaster)) s).2) := by
  unfold UpgradeClusterT
  rw [hlist]

/-! Claim theorems. -/

/-- Claim C1: the claim says each worker task delivers its re-fetch,
update, or poll error — in particular a poll timeout — to the result
channel, making `UpgradeCluster` return non-nil.  The code contradicts
this: in `envWorkerStuck` the spec-side outcome of worker `w1` is the
poll timeout, yet the value the goroutine sends is nil (the update/poll
errors are written to the shadowed block-local `err`), and
`UpgradeCluster` returns nil. -/
theorem c1_worker_timeout_lost :
    taskOutcome envWorkerStuck vT w1 = some Err.timeout ∧
    taskSent envWorkerStuck w1 = none ∧
    UpgradeCluster envWorkerStuck vT [0] = none := by
  refine ⟨by decide, by decide, by decide⟩

/-- Claim C3 (counterexample): on an empty machine set, `UpgradeCluster`
returns the `No master is found.` error — the `NoControlPlaneFound`
configuration error — and not a `RepositoryError` as the claim states. -/
theorem c3_empty_gives_no_master :
    UpgradeCluster envEmpty vT [] = some Err.noMaster := by
  decide

/-- Claim C3 (amended): a listing failure is returned as the repository's
own error, while an empty machine set falls through the master scan and
is returned as the `No master is found.` error. -/
theorem c3_list_failure_vs_empty (env : Env) (v : String) (s : List Nat) :
    (∀ e, env.list = .error e → UpgradeCluster env v s = some e) ∧
    (env.list = .ok [] → UpgradeCluster env v s = some Err.noMaster) := by
  constructor
  · intro e h
    unfold UpgradeCluster UpgradeClusterT
    rw [h]
  · intro h
    unfold UpgradeCluster UpgradeClusterT
    rw [h]
    rfl

/-- Claim C3 (witness): the amended theorem at the concrete scenarios. -/
theorem c3_list_failure_vs_empty_witness :
    UpgradeCluster envListFails vT [] = some (Err.api "boom") ∧
    UpgradeCluster envEmpty vT [] = some Err.noMaster :=
  ⟨(c3_list_failure_vs_empty envListFails vT []).1 (Err.api "boom") rfl,
   (c3_list_failure_vs_empty envEmpty vT []).2 rfl⟩

/-- Claim C4: when no listed machine has the control-plane role,
`UpgradeCluster` returns the `No master is found.` error with an empty
repository-call trace — zero `Update` calls, no mutation at all. -/
theorem c4_no_master_no_mutation (env : Env) (v : String) (s : List Nat)
    (machines : List Machine) (hlist : env.list = .ok machines)
    (hnm : ∀ m ∈ machines, m.isMaster = false) :
    UpgradeClusterT env v s = (some Err.noMaster, []) := by
  have hfind : machines.find? (fun m => m.isMaster) = none := by
    rw [List.find?_eq_none]
    intro m hm
    simp [hnm m hm]
  rw [UpgradeClusterT_ok env v s machines hlist, hfind]

/-- Claim C4 (witness): the theorem at a concrete all-worker machine
set. -/
theorem c4_no_master_no_mutation_witness :
    UpgradeClusterT envNoMaster vT [0] = (some Err.noMaster, []) :=
  c4_no_master_no_mutation envNoMaster vT [0] [w1] rfl (by decide)

/-- Claim C5: the claim says a control-plane poll deadline breach makes
`UpgradeCluster` return the timeout with zero worker update calls, and
that no worker call precedes control-plane confirmation.  The code
contradicts this: in `envCpStuck` the control-plane readiness poll times
out, yet the trace shows the worker re-fetch and worker update were
issued (with no `cpReady` confirmation ever emitted) and `UpgradeCluster`
returns nil — the timeout was written to the shadowed block-local `err`
and the coordinator fell through to the fan-out. -/
theorem c5_cp_timeout_not_hard_stop :
    waitPoll envCpStuck.attempts
        (fun t => pollWrapper (checkAt envCpStuck t "m0" vT)) =
      some Err.timeout ∧
    UpgradeClusterT envCpStuck vT [0] =
      (none, [Event.update (cpSubmitted m0 vT), Event.getM "w1",
              Event.update (workerSubmitted w1 vT)]) := by
  refine ⟨by decide, by decide⟩

/-- Claim C2 (counterexample): `w1` precedes `w2` in listing order and
both tasks fail, yet when `w2`'s task completes first the coordinator
returns `w2`'s error, and when `w1`'s completes first it returns `w1`'s —
the returned error is neither the first failure in listing order nor
independent of the interleaving. -/
theorem c2_listing_order_refuted :
    UpgradeCluster envTwoFailures vT [1, 0] = some (Err.api "w2") ∧
    taskSent envTwoFailures w1 = some (Err.api "w1") ∧
    Err.api "w2" ≠ Err.api "w1" ∧
    UpgradeCluster envTwoFailures vT [0, 1] = some (Err.api "w1") := by
  refine ⟨by decide, by decide, by decide, by decide⟩

/-- Claim C2 (amended): when `UpgradeCluster` reaches the fan-out and
returns an error, that error is the sent value of the first task in
completion (channel) order that sent a failure, every earlier-completing
task having sent nil; the completion order is the schedule, not the
listing order. -/
theorem c2_first_error_in_completion_order (env : Env) (v : String)
    (s : List Nat) (machines : List Machine) (master : Machine) (e : Err)
    (hlist : env.list = .ok machines)
    (hfind : machines.find? (fun m => m.isMaster) = some master)
    (hres : UpgradeCluster env v s = some e) :
    ∃ (j : Nat) (w : Machine),
      (s.filterMap (fun i => (machines.filter (fun m => !m.isMaster))[i]?))[j]? =
        some w ∧
      taskSent env w = some e ∧
      ∀ (j' : Nat) (w' : Machine), j' < j →
        (s.filterMap (fun i => (machines.filter (fun m => !m.isMaster))[i]?))[j']? =
          some w' →
        taskSent env w' = none := by
  have hfan : UpgradeCluster env v s =
      drainOutcomes
        ((s.filterMap (fun i => (machines.filter (fun m => !m.isMaster))[i]?)).map
          (taskSent env)) := by
    unfold UpgradeCluster
    rw [UpgradeClusterT_ok env v s machines hlist, hfind]
    rfl
  rw [hfan] at hres
  exact drainOutcomes_map_eq_some (taskSent env) _ e hres

/-- Claim C2 (witness): the amended theorem at the two-failure scenario
with `w2` completing first. -/
theorem c2_first_error_in_completion_order_witness :
    ∃ (j : Nat) (w : Machine),
      (([1, 0] : List Nat).filterMap
          (fun i => ([m0, w1, w2].filter (fun m => !m.isMaster))[i]?))[j]? =
        some w ∧
      taskSent envTwoFailures w = some (Err.api "w2") ∧
      ∀ (j' : Nat) (w' : Machine), j' < j →
        (([1, 0] : List Nat).filterMap
            (fun i => ([m0, w1, w2].filter (fun m => !m.isMaster))[i]?))[j']? =
          some w' →
        taskSent envTwoFailures w' = none :=
  c2_first_error_in_completion_order envTwoFailures vT [1, 0] [m0, w1, w2] m0
    (Err.api "w2") rfl (by decide) (by decide)

/-- Claim C6: the readiness check reports ready exactly when the machine
record is fetched, it references a node, the node is fetched, the node's
readiness conditions hold, and the node's kubelet version string is
exactly `"v"` followed by the target version. -/
theorem c6_ready_iff_exact_version (getMachine : String → Except Err Machine)
    (getNode : String → Except Err Node) (machineName kubeVersion : String) :
    (checkMachineReady getMachine getNode machineName kubeVersion).1 = true ↔
      ∃ machine, getMachine machineName = .ok machine ∧
        ∃ refName, machine.nodeRef = some refName ∧
          ∃ node, getNode refName = .ok node ∧ isNodeReady node = true ∧
            node.kubeletVersion = "v" ++ kubeVersion := by
  unfold checkMachineReady
  cases hm : getMachine machineName with
  | error e => simp
  | ok machine =>
    cases hr : machine.nodeRef with
    | none => simp [hr]
    | some refName =>
      cases hn : getNode refName with
      | error e => simp [hr, hn]
      | ok node =>
        by_cases hready : isNodeReady node = true
        · by_cases hv : node.kubeletVersion = "v" ++ kubeVersion
          · simp [hr, hn, hready, hv]
          · simp [hr, hn, hready, hv]
        · simp [hr, hn, hready]

/-- Claim C7: a non-nil error from the readiness check is mapped by the
wrapped predicate to `(false, nil)` and never aborts the poll; the poll
succeeds only when some in-budget check reported ready with a nil error,
and its only failure value is the timeout. -/
theorem c7_errors_never_abort_poll (n : Nat) (check : Nat → Bool × Option Err) :
    (∀ r e, pollWrapper (r, some e) = (false, none)) ∧
    (waitPoll n (fun t => pollWrapper (check t)) = none →
      ∃ t, t < n ∧ (check t).1 = true ∧ (check t).2 = none) ∧
    (∀ e, waitPoll n (fun t => pollWrapper (check t)) = some e →
      e = Err.timeout) := by
  refine ⟨fun r e => rfl, ?_, ?_⟩
  · intro h
    unfold waitPoll at h
    rw [waitPollFrom_eq_none_iff] at h
    obtain ⟨i, hi, hp⟩ := h
    simp only [Nat.zero_add] at hp
    have hc := (pollWrapper_fst (check i)).1 hp
    exact ⟨i, hi, hc.1, hc.2⟩
  · intro e h
    exact waitPollFrom_eq_some _ n 0 e h

/-- Claim C7 (witness): a check that always errors drives the poll to the
timeout rather than aborting, and a check that reports ready at once
makes the poll succeed. -/
theorem c7_errors_never_abort_poll_witness :
    Err.timeout = Err.timeout ∧
    (∃ t, t < 1 ∧ ((fun _ => ((true : Bool), (none : Option Err))) t).1 = true ∧
      ((fun _ => ((true : Bool), (none : Option Err))) t).2 = none) :=
  ⟨(c7_errors_never_abort_poll 2 (fun _ => (false, some (Err.api "x")))).2.2
      Err.timeout (by decide),
   (c7_errors_never_abort_poll 1 (fun _ => (true, none))).2.1 (by decide)⟩

/-- Claim C8: the control-plane submission sets exactly the kubelet and
control-plane version fields to the target, the worker submission sets
exactly the kubelet version field, and every other field of the
submitted record is the fetched record's. -/
theorem c8_update_frame (m : Machine) (v : String) :
    (cpSubmitted m v).versions.kubelet = v ∧
    (cpSubmitted m v).versions.controlPlane = v ∧
    (cpSubmitted m v).name = m.name ∧
    (cpSubmitted m v).isMaster = m.isMaster ∧
    (cpSubmitted m v).providerConfig = m.providerConfig ∧
    (cpSubmitted m v).nodeRef = m.nodeRef ∧
    (workerSubmitted m v).versions.kubelet = v ∧
    (workerSubmitted m v).versions.controlPlane = m.versions.controlPlane ∧
    (workerSubmitted m v).name = m.name ∧
    (workerSubmitted m v).isMaster = m.isMaster ∧
    (workerSubmitted m v).providerConfig = m.providerConfig ∧
    (workerSubmitted m v).nodeRef = m.nodeRef :=
  ⟨rfl, rfl, rfl, rfl, rfl, rfl, rfl, rfl, rfl, rfl, rfl, rfl⟩

/-- Claim C9 (counterexample): with two control-plane machines `m0`, `m1`
and worker `w1`, the run's full trace touches only `m0` (updated and
confirmed) and `w1`; the second control-plane machine `m1` is never
re-fetched — it is skipped by the fan-out, not treated as a worker. -/
theorem c9_second_master_skipped :
    UpgradeClusterT envTwoMasters vT [0] =
      (none, [Event.update (cpSubmitted m0 vT), Event.cpReady,
              Event.getM "w1", Event.update (workerSubmitted w1 vT)]) ∧
    Event.getM "m1" ∉ (UpgradeClusterT envTwoMasters vT [0]).2 := by
  refine ⟨by decide, by decide⟩

/-- Claim C9 (amended): the first machine in listing order with the
control-plane role is the one whose record is submitted as the control
plane (the trace starts with its update), and every re-fetch issued by
the fan-out targets a machine of the listing without the control-plane
role — other control-plane machines get no task at all. -/
theorem c9_first_master_only (env : Env) (v : String) (s : List Nat)
    (machines : List Machine) (master : Machine)
    (hlist : env.list = .ok machines)
    (hfind : machines.find? (fun m => m.isMaster) = some master) :
    (∃ rest, (UpgradeClusterT env v s).2 =
        Event.update (cpSubmitted master v) :: rest) ∧
    (∀ n, Event.getM n ∈ (UpgradeClusterT env v s).2 →
      ∃ w, w ∈ machines ∧ w.isMaster = false ∧ w.name = n) := by
  rw [UpgradeClusterT_ok env v s machines hlist, hfind]
  constructor
  · obtain ⟨rest, hrest⟩ := cpPhase_head env v master
    refine ⟨rest ++ (fanout env v (machines.filter (fun m => !m.isMaster)) s).2, ?_⟩
    show cpPhase env v master ++
        (fanout env v (machines.filter (fun m => !m.isMaster)) s).2 = _
    rw [hrest]
    rfl
  · intro n hn
    rcases List.mem_append.1 hn with h | h
    · exact absurd h (getM_not_mem_cpPhase env v master n)
    · rcases List.mem_flatMap.1 h with ⟨w, hw, hev⟩
      have hww := mem_workers_of_completed hw
      exact ⟨w, hww.1, hww.2, (getM_mem_taskEvents hev).symm⟩

/-- Claim C9 (witness): the amended theorem at the two-master scenario:
the trace opens with `m0`'s control-plane submission. -/
theorem c9_first_master_only_witness :
    ∃ rest, (UpgradeClusterT envTwoMasters vT [0]).2 =
      Event.update (cpSubmitted m0 vT) :: rest :=
  (c9_first_master_only envTwoMasters vT [0] [m0, m1, w1] m0 rfl (by decide)).1

/-- Claim C10: a machine fetched successfully whose node reference is
still absent makes the readiness check report not-ready with a nil
error, so the poll keeps retrying instead of surfacing a failure. -/
theorem c10_missing_node_ref_not_error
    (getMachine : String → Except Err Machine)
    (getNode : String → Except Err Node) (machineName kubeVersion : String)
    (machine : Machine) (hget : getMachine machineName = .ok machine)
    (href : machine.nodeRef = none) :
    checkMachineReady getMachine getNode machineName kubeVersion =
      (false, none) := by
  simp [checkMachineReady, hget, href]

/-- A worker machine whose node has not yet materialized. -/
def wNoRef : Machine :=
  { name := "w3", isMaster := false, providerConfig := "p4",
    versions := { kubelet := "1.0.0", controlPlane := "" }, nodeRef := none }

/-- Claim C10 (witness): the theorem at a concrete machine with no node
reference. -/
theorem c10_missing_node_ref_not_error_witness :
    checkMachineReady (fun _ => .ok wNoRef) (fun _ => .ok readyNode) "w3" vT =
      (false, none) :=
  c10_missing_node_ref_not_error _ _ "w3" vT wNoRef rfl rfl

end ClusterUpgrade
